import Mathlib

/-!
Verification of the logforge pipeline (Apache access-log ETL tool).

The development shallowly embeds the four Python modules:

* `src/parser.py`   — the line grammar (`matchLine`) and the batch
  transformer (`parse_log`);
* `src/database.py` — the SQLite-backed store (`create_connection`,
  `create_table`, `insert_log_entries`, `insert_error_entries`,
  `is_db_up_to_date`, `is_db_empty`);
* `src/etl_apache.py` — the orchestrator (`extract`, `transform`, `load`,
  `run_etl_if_needed`);
* `src/summarizer.py` — the aggregator (`summarize_log`).

Strings are modelled as `List Char`; fallible Python code (exceptions)
is modelled with `Option` / `Except`.
-/

/-- Structured record produced by the Line Parser for a matching line:
the per-line dictionary built in `parse_log` (src/parser.py) from the
nine named capture groups of the compiled pattern.  Each field holds the
captured run of characters. -/
structure LogEntry where
  ipaddress : List Char
  timestamp : List Char
  method : List Char
  path : List Char
  protocol : List Char
  status_code : List Char
  bytes_sent : List Char
  referrer : List Char
  user_agent : List Char
  deriving DecidableEq, Repr

/-! ### The fixed literal separators of the access-log grammar

The regular expression in src/parser.py is a concatenation of nine
capture groups and fixed literal separators.  The separators are named
here once and reused by both the matcher and the re-serializer, so the
round-trip statement is exactly about the grammar's own literals. -/

/-- Literal "." between the four octets of the IP address. -/
def dot : List Char := ['.']

/-- Literal " - - [" between the IP address and the timestamp. -/
def sepA : List Char := [' ', '-', ' ', '-', ' ', '[']

/-- Literal "] \"" (closing bracket, space, opening quote) between the
timestamp and the method. -/
def sepB : List Char := [']', ' ', '"']

/-- Literal single space (between method/path, path/protocol,
status/bytes). -/
def sp : List Char := [' ']

/-- Literal "\" " (closing quote, space) between the protocol and the
status code. -/
def sepC : List Char := ['"', ' ']

/-- Literal " \"" (space, opening quote) between the bytes count and the
referrer. -/
def sepD : List Char := [' ', '"']

/-- Literal "\" \"" (quote, space, quote) between the referrer and the
user agent. -/
def sepE : List Char := ['"', ' ', '"']

/-- Literal closing quote after the user agent, which must end the line
(the pattern is anchored with a dollar sign and `re.match` anchors the
start). -/
def sepF : List Char := ['"']

/-! ### Matching primitives

Each primitive models one piece of the regular expression.  The greedy
character-class runs (`[^\]]+`, `[A-Z]+`, `[^"]+`, `\d+`) are modelled
with `takeWhile`: each such run is followed in the pattern by a literal
character that lies outside the class, so the regex engine's greedy
match with backtracking picks exactly the maximal run and never needs a
shorter alternative. -/

/-- Consume an exact literal prefix (a fixed substring of the pattern). -/
def expectLit : List Char → List Char → Option (List Char)
  | [], l => some l
  | _ :: _, [] => none
  | c :: cs, d :: ds => if c = d then expectLit cs ds else none

/-- Consume a maximal non-empty run of characters satisfying `p`
(a greedy one-or-more character-class group). -/
def takeGroup (p : Char → Bool) (l : List Char) : Option (List Char × List Char) :=
  if l.takeWhile p = [] then none else some (l.takeWhile p, l.dropWhile p)

/-- One octet of the IP address: a run of one to three digits, per the
`\d` (modelled as decimal digit) groups with a 1-3 repetition bound.
A run longer than three digits fails, exactly as the regex does: no
shorter prefix of the run can be followed by the required literal,
because the following character would still be a digit. -/
def digitGroup (l : List Char) : Option (List Char × List Char) :=
  match takeGroup Char.isDigit l with
  | none => none
  | some q => if q.1.length ≤ 3 then some q else none

/-- The status code group: exactly three digits. -/
def statusGroup (l : List Char) : Option (List Char × List Char) :=
  match l with
  | a :: b :: c :: r =>
    if a.isDigit && b.isDigit && c.isDigit then some ([a, b, c], r) else none
  | _ => none

/-- Split a quote-free region at its last space whose suffix is
non-empty.  This is the decomposition the regex engine produces for the
two adjacent greedy groups of path and protocol separated by a single
literal space: the greedy path group backtracks from the right, so the
separator is the last usable space of the region. -/
def splitLastSpace : List Char → Option (List Char × List Char)
  | [] => none
  | c :: cs =>
    match splitLastSpace cs with
    | some q => some (c :: q.1, q.2)
    | none => if c = ' ' ∧ cs ≠ [] then some ([], cs) else none

/-- Path/protocol split: additionally the path (the part before the
separator space) must be non-empty, since its group requires at least
one character. -/
def splitPathProtocol (s : List Char) : Option (List Char × List Char) :=
  match splitLastSpace s with
  | none => none
  | some q => if q.1 = [] then none else some q

/-- The IP-address part of the pattern: four 1-3 digit octets separated
by dots.  Returns the captured dotted-quad text and the rest of the
line. -/
def matchIP (l : List Char) : Option (List Char × List Char) :=
  (digitGroup l).bind fun q1 =>
  (expectLit dot q1.2).bind fun r1 =>
  (digitGroup r1).bind fun q2 =>
  (expectLit dot q2.2).bind fun r2 =>
  (digitGroup r2).bind fun q3 =>
  (expectLit dot q3.2).bind fun r3 =>
  (digitGroup r3).bind fun q4 =>
  some (q1.1 ++ dot ++ q2.1 ++ dot ++ q3.1 ++ dot ++ q4.1, q4.2)

/-- The middle of the pattern: timestamp, "] \"", method, space, the
quote-free path/protocol region, and the closing "\" " literal.
Returns ((timestamp, method, path, protocol), rest). -/
def matchMiddle (l : List Char) :
    Option ((List Char × List Char × List Char × List Char) × List Char) :=
  (takeGroup (fun c => c != ']') l).bind fun qts =>
  (expectLit sepB qts.2).bind fun r5 =>
  (takeGroup Char.isUpper r5).bind fun qm =>
  (expectLit sp qm.2).bind fun r6 =>
  (takeGroup (fun c => c != '"') r6).bind fun qpp =>
  (splitPathProtocol qpp.1).bind fun qpa =>
  (expectLit sepC qpp.2).bind fun r7 =>
  some ((qts.1, qm.1, qpa.1, qpa.2), r7)

/-- The tail of the pattern: status code, space, bytes count, " \"",
referrer, "\" \"", user agent, and the final quote which must end the
line.  Returns (status, bytes, referrer, user_agent). -/
def matchTail (l : List Char) :
    Option (List Char × List Char × List Char × List Char) :=
  (statusGroup l).bind fun qst =>
  (expectLit sp qst.2).bind fun r8 =>
  (takeGroup Char.isDigit r8).bind fun qb =>
  (expectLit sepD qb.2).bind fun r9 =>
  (takeGroup (fun c => c != '"') r9).bind fun qr =>
  (expectLit sepE qr.2).bind fun r10 =>
  (takeGroup (fun c => c != '"') r10).bind fun qu =>
  if qu.2 = sepF then some (qst.1, qb.1, qr.1, qu.1) else none

/-- The Line Parser: `log_pattern.match(line)` from src/parser.py,
together with the construction of the entry dictionary from the nine
capture groups.  The pattern must consume the whole line (it is
anchored on both sides and the lines fed to it by `parse_log` contain
no newline characters). -/
def matchLine (l : List Char) : Option LogEntry :=
  (matchIP l).bind fun qip =>
  (expectLit sepA qip.2).bind fun r4 =>
  (matchMiddle r4).bind fun qmid =>
  (matchTail qmid.2).bind fun qt =>
  some { ipaddress := qip.1
         timestamp := qmid.1.1
         method := qmid.1.2.1
         path := qmid.1.2.2.1
         protocol := qmid.1.2.2.2
         status_code := qt.1
         bytes_sent := qt.2.1
         referrer := qt.2.2.1
         user_agent := qt.2.2.2 }

/-- Re-serialization of the nine captured fields with the fixed literal
separators of the grammar (the canonical form named by the spec). -/
def serializeEntry (e : LogEntry) : List Char :=
  e.ipaddress ++ sepA ++ e.timestamp ++ sepB ++ e.method ++ sp ++ e.path ++ sp ++
    e.protocol ++ sepC ++ e.status_code ++ sp ++ e.bytes_sent ++ sepD ++ e.referrer ++
    sepE ++ e.user_agent ++ sepF

/-! ### Splitting into lines

`parse_log` iterates over `log_content.splitlines()`.  Python's
`str.splitlines` splits at every line-boundary character (`\n`, `\r`,
vertical tab, form feed, the three separator controls, NEL, LINE
SEPARATOR, PARAGRAPH SEPARATOR), treating a `\r\n` pair as a single
boundary, and produces no trailing empty line for a trailing
boundary. -/

/-- Line-boundary characters of Python's `str.splitlines`. -/
def isLineBoundary (c : Char) : Bool :=
  c == '\n' || c == '\r' || c == '\x0b' || c == '\x0c' ||
  c == '\x1c' || c == '\x1d' || c == '\x1e' || c == '\x85' ||
  c == '\u2028' || c == '\u2029'

/-- Worker for `splitlines`; `cur` is the reversed current line. -/
def splitlinesAux (cur : List Char) : List Char → List (List Char)
  | [] => [cur.reverse]
  | '\r' :: '\n' :: rest =>
    cur.reverse :: (if rest = [] then [] else splitlinesAux [] rest)
  | c :: rest =>
    if isLineBoundary c then
      cur.reverse :: (if rest = [] then [] else splitlinesAux [] rest)
    else
      splitlinesAux (c :: cur) rest

/-- Python's `str.splitlines` on the log content. -/
def splitlines (l : List Char) : List (List Char) :=
  if l = [] then [] else splitlinesAux [] l

/-- The loop body of `parse_log`: each line is matched independently; a
match is appended to `log_entries`, a non-match to `error_entries`,
both in original order. -/
def parseLines : List (List Char) → List LogEntry × List (List Char)
  | [] => ([], [])
  | line :: rest =>
    match matchLine line with
    | some e => (e :: (parseLines rest).1, (parseLines rest).2)
    | none => ((parseLines rest).1, line :: (parseLines rest).2)

/-- The Batch Transformer `parse_log` of src/parser.py: split the
content into lines and run the Line Parser over each line, returning
the pair (log_entries, error_entries). -/
def parse_log (log_content : List Char) : List LogEntry × List (List Char) :=
  parseLines (splitlines log_content)

/-! ### Decomposition lemmas for the matching primitives

Each lemma states that a successful step consumed a prefix of its input
that reassembles (with the grammar's literals) to the input, and that
every capture is non-empty. -/

theorem expectLit_spec : ∀ (lit l r : List Char), expectLit lit l = some r → l = lit ++ r := by
  intro lit
  induction lit with
  | nil =>
    intro l r h
    simp only [expectLit, Option.some.injEq] at h
    simp [h]
  | cons c cs ih =>
    intro l r h
    cases l with
    | nil => simp [expectLit] at h
    | cons d ds =>
      simp only [expectLit] at h
      by_cases hc : c = d
      · rw [if_pos hc] at h
        subst hc
        simp [ih ds r h]
      · rw [if_neg hc] at h
        exact absurd h (by simp)

theorem takeGroup_spec : ∀ (p : Char → Bool) (l : List Char) q,
    takeGroup p l = some q → l = q.1 ++ q.2 ∧ q.1 ≠ [] := by
  intro p l q h
  simp only [takeGroup] at h
  split at h
  · exact absurd h (by simp)
  · rename_i hne
    have hq := Option.some.inj h
    subst hq
    exact ⟨(List.takeWhile_append_dropWhile p l).symm, hne⟩

theorem digitGroup_spec : ∀ (l : List Char) q,
    digitGroup l = some q → l = q.1 ++ q.2 ∧ q.1 ≠ [] := by
  intro l q h
  simp only [digitGroup] at h
  split at h
  · exact absurd h (by simp)
  · rename_i q' hq'
    split at h
    · have hq := Option.some.inj h
      subst hq
      exact takeGroup_spec _ l q' hq'
    · exact absurd h (by simp)

theorem statusGroup_spec : ∀ (l : List Char) q,
    statusGroup l = some q → l = q.1 ++ q.2 ∧ q.1 ≠ [] := by
  intro l q h
  simp only [statusGroup] at h
  split at h
  · rename_i a b c r
    split at h
    · have hq := Option.some.inj h
      subst hq
      exact ⟨rfl, by simp⟩
    · exact absurd h (by simp)
  · exact absurd h (by simp)

theorem splitLastSpace_spec : ∀ (s : List Char) q,
    splitLastSpace s = some q → s = q.1 ++ sp ++ q.2 ∧ q.2 ≠ [] := by
  intro s
  induction s with
  | nil => intro q h; simp [splitLastSpace] at h
  | cons c cs ih =>
    intro q h
    simp only [splitLastSpace] at h
    split at h
    · rename_i q' hq'
      have hq := Option.some.inj h
      subst hq
      obtain ⟨h1, h2⟩ := ih q' hq'
      refine ⟨?_, h2⟩
      simp only [List.cons_append]
      rw [← h1]
    · split at h
      · rename_i hc
        have hq := Option.some.inj h
        subst hq
        exact ⟨by simp [sp, hc.1], hc.2⟩
      · exact absurd h (by simp)

theorem splitPathProtocol_spec : ∀ (s : List Char) q,
    splitPathProtocol s = some q → s = q.1 ++ sp ++ q.2 ∧ q.1 ≠ [] ∧ q.2 ≠ [] := by
  intro s q h
  simp only [splitPathProtocol] at h
  split at h
  · exact absurd h (by simp)
  · rename_i q' hq'
    split at h
    · exact absurd h (by simp)
    · rename_i hne
      have hq := Option.some.inj h
      subst hq
      obtain ⟨h1, h2⟩ := splitLastSpace_spec s q' hq'
      exact ⟨h1, hne, h2⟩

theorem matchIP_spec : ∀ (l : List Char) q,
    matchIP l = some q → l = q.1 ++ q.2 ∧ q.1 ≠ [] := by
  intro l q h
  simp only [matchIP, Option.bind_eq_some] at h
  obtain ⟨q1, h1, r1, e1, q2, h2, r2, e2, q3, h3, r3, e3, q4, h4, hfin⟩ := h
  have hq := Option.some.inj hfin
  subst hq
  obtain ⟨hL, hne1⟩ := digitGroup_spec l q1 h1
  have hd1 := expectLit_spec dot q1.2 r1 e1
  obtain ⟨hR1, _⟩ := digitGroup_spec r1 q2 h2
  have hd2 := expectLit_spec dot q2.2 r2 e2
  obtain ⟨hR2, _⟩ := digitGroup_spec r2 q3 h3
  have hd3 := expectLit_spec dot q3.2 r3 e3
  obtain ⟨hR3, _⟩ := digitGroup_spec r3 q4 h4
  constructor
  · rw [hL, hd1, hR1, hd2, hR2, hd3, hR3]
    simp [List.append_assoc]
  · simp [List.append_eq_nil, hne1]

theorem matchMiddle_spec : ∀ (l : List Char) q, matchMiddle l = some q →
    l = q.1.1 ++ sepB ++ q.1.2.1 ++ sp ++ q.1.2.2.1 ++ sp ++ q.1.2.2.2 ++ sepC ++ q.2 ∧
    q.1.1 ≠ [] ∧ q.1.2.1 ≠ [] ∧ q.1.2.2.1 ≠ [] ∧ q.1.2.2.2 ≠ [] := by
  intro l q h
  simp only [matchMiddle, Option.bind_eq_some] at h
  obtain ⟨qts, h1, r5, e1, qm, h2, r6, e2, qpp, h3, qpa, h4, r7, e3, hfin⟩ := h
  have hq := Option.some.inj hfin
  subst hq
  obtain ⟨hL, hts⟩ := takeGroup_spec _ l qts h1
  have hsB := expectLit_spec sepB qts.2 r5 e1
  obtain ⟨hR5, hm⟩ := takeGroup_spec _ r5 qm h2
  have hsp := expectLit_spec sp qm.2 r6 e2
  obtain ⟨hR6, _⟩ := takeGroup_spec _ r6 qpp h3
  obtain ⟨hPP, hpa1, hpa2⟩ := splitPathProtocol_spec qpp.1 qpa h4
  have hsC := expectLit_spec sepC qpp.2 r7 e3
  refine ⟨?_, hts, hm, hpa1, hpa2⟩
  rw [hL, hsB, hR5, hsp, hR6, hPP, hsC]
  simp [List.append_assoc]

theorem matchTail_spec : ∀ (l : List Char) q, matchTail l = some q →
    l = q.1 ++ sp ++ q.2.1 ++ sepD ++ q.2.2.1 ++ sepE ++ q.2.2.2 ++ sepF ∧
    q.1 ≠ [] ∧ q.2.1 ≠ [] ∧ q.2.2.1 ≠ [] ∧ q.2.2.2 ≠ [] := by
  intro l q h
  simp only [matchTail, Option.bind_eq_some] at h
  obtain ⟨qst, h1, r8, e1, qb, h2, r9, e2, qr, h3, r10, e3, qu, h4, hfin⟩ := h
  split at hfin
  · rename_i hqf
    have hq := Option.some.inj hfin
    subst hq
    obtain ⟨hL, hst⟩ := statusGroup_spec l qst h1
    have hsp := expectLit_spec sp qst.2 r8 e1
    obtain ⟨hR8, hb⟩ := takeGroup_spec _ r8 qb h2
    have hsD := expectLit_spec sepD qb.2 r9 e2
    obtain ⟨hR9, hr⟩ := takeGroup_spec _ r9 qr h3
    have hsE := expectLit_spec sepE qr.2 r10 e3
    obtain ⟨hR10, hu⟩ := takeGroup_spec _ r10 qu h4
    refine ⟨?_, hst, hb, hr, hu⟩
    rw [hL, hsp, hR8, hsD, hR9, hsE, hR10, hqf]
    simp [List.append_assoc]
  · exact absurd hfin (by simp)

/-- Combined invariant of a successful line match: the nine captures
reassemble with the fixed separators to the original line, and every
capture is non-empty. -/
theorem matchLine_inv : ∀ (l : List Char) (e : LogEntry), matchLine l = some e →
    serializeEntry e = l ∧
    (e.ipaddress ≠ [] ∧ e.timestamp ≠ [] ∧ e.method ≠ [] ∧ e.path ≠ [] ∧
     e.protocol ≠ [] ∧ e.status_code ≠ [] ∧ e.bytes_sent ≠ [] ∧
     e.referrer ≠ [] ∧ e.user_agent ≠ []) := by
  intro l e h
  simp only [matchLine, Option.bind_eq_some] at h
  obtain ⟨qip, h1, r4, e1, qmid, h2, qt, h3, hfin⟩ := h
  have hq := Option.some.inj hfin
  subst hq
  obtain ⟨hL, hip⟩ := matchIP_spec l qip h1
  have hsA := expectLit_spec sepA qip.2 r4 e1
  obtain ⟨hR4, hts, hm, hpa, hpr⟩ := matchMiddle_spec r4 qmid h2
  obtain ⟨hR7, hst, hb, hr, hu⟩ := matchTail_spec qmid.2 qt h3
  refine ⟨?_, hip, hts, hm, hpa, hpr, hst, hb, hr, hu⟩
  simp only [serializeEntry]
  rw [hL, hsA, hR4, hR7]
  simp [List.append_assoc]

/-! ### The Batch Transformer theorems -/

theorem parseLines_eq : ∀ ls : List (List Char), parseLines ls =
    (ls.filterMap matchLine, ls.filter fun l => (matchLine l).isNone) := by
  intro ls
  induction ls with
  | nil => rfl
  | cons line rest ih =>
    cases h : matchLine line <;>
      simp [parseLines, h, ih, List.filterMap_cons, List.filter_cons]

theorem parseLines_length : ∀ ls : List (List Char),
    (parseLines ls).1.length + (parseLines ls).2.length = ls.length := by
  intro ls
  induction ls with
  | nil => rfl
  | cons line rest ih =>
    cases h : matchLine line <;> simp [parseLines, h] <;> omega

/-- C1: the Batch Transformer `parse_log` partitions the lines of its
input totally and exclusively: the number of log entries plus the
number of error entries equals the number of lines, the log entries are
exactly the matching lines in file order, the error entries are exactly
the non-matching lines in file order, and the empty input yields two
empty sequences. -/
theorem parse_log_partitions_lines : ∀ log_content : List Char,
    (parse_log log_content).1.length + (parse_log log_content).2.length =
      (splitlines log_content).length ∧
    (parse_log log_content).1 = (splitlines log_content).filterMap matchLine ∧
    (parse_log log_content).2 =
      ((splitlines log_content).filter fun l => (matchLine l).isNone) ∧
    parse_log [] = ([], []) := by
  intro lc
  refine ⟨parseLines_length _, ?_, ?_, rfl⟩ <;> simp [parse_log, parseLines_eq]

/-- C4: for every line the Line Parser matches, re-serializing the nine
captured fields with the grammar's fixed literal separators
reconstructs the original line, character for character. -/
theorem matched_line_roundtrip : ∀ (l : List Char) (e : LogEntry),
    matchLine l = some e → serializeEntry e = l :=
  fun l e h => (matchLine_inv l e h).1

/-- C9: for every line the Line Parser matches, all nine fields of the
produced entry are present and non-empty (each capture group requires
at least one character), so no field is ever null. -/
theorem matched_entry_fields_nonempty : ∀ (l : List Char) (e : LogEntry),
    matchLine l = some e →
    e.ipaddress ≠ [] ∧ e.timestamp ≠ [] ∧ e.method ≠ [] ∧ e.path ≠ [] ∧
    e.protocol ≠ [] ∧ e.status_code ≠ [] ∧ e.bytes_sent ≠ [] ∧
    e.referrer ≠ [] ∧ e.user_agent ≠ [] :=
  fun l e h => (matchLine_inv l e h).2

/-- The well-formed scenario line given in the specification. -/
def sampleLine : List Char :=
  ("127.0.0.1 - - [10/Oct/2023:13:55:36 -0700] \"GET /index.html HTTP/1.1\" 200 1024 \"-\" \"curl/7.68.0\"").data

/-- The entry the specification expects for `sampleLine`. -/
def sampleEntry : LogEntry :=
  { ipaddress := "127.0.0.1".data
    timestamp := "10/Oct/2023:13:55:36 -0700".data
    method := "GET".data
    path := "/index.html".data
    protocol := "HTTP/1.1".data
    status_code := "200".data
    bytes_sent := "1024".data
    referrer := "-".data
    user_agent := "curl/7.68.0".data }

/-- Witness for C4: the round-trip theorem applied to the concrete
scenario line of the specification. -/
theorem matched_line_roundtrip_witness :
    matchLine sampleLine = some sampleEntry ∧ serializeEntry sampleEntry = sampleLine :=
  ⟨by decide, matched_line_roundtrip sampleLine sampleEntry (by decide)⟩

/-- Witness for C9: the non-null-fields theorem applied to the concrete
scenario line of the specification. -/
theorem matched_entry_fields_nonempty_witness :
    matchLine sampleLine = some sampleEntry ∧ sampleEntry.ipaddress ≠ [] ∧
      sampleEntry.user_agent ≠ [] :=
  ⟨by decide, (matched_entry_fields_nonempty sampleLine sampleEntry (by decide)).1,
    (matched_entry_fields_nonempty sampleLine sampleEntry (by decide)).2.2.2.2.2.2.2.2⟩

/-! ### The Store (src/database.py)

The SQLite artifact is modelled as a `DBState`: each of the two tables
is either absent (`none` — the artifact exists but `create_table` has
not run on it) or present with its rows in insertion order.  A
filesystem path holding (or failing to hold) such an artifact is a
`FileState`.  Queries that SQLite would answer with an exception
(`no such table`, or calling a method on a `None` connection) return an
`Except.error`. -/

/-- Conversion of a run of captured digit characters to the integer
SQLite stores in the INTEGER-typed columns (type affinity converts the
textual digit captures at insert time). -/
def digitsToNat (l : List Char) : Nat :=
  l.foldl (fun n c => 10 * n + (c.toNat - 48)) 0

/-- One row of the `logs` table (the surrogate id column is left
implicit; rows are kept in insertion order). -/
structure LogRow where
  ipaddress : List Char
  timestamp : List Char
  method : List Char
  path : List Char
  protocol : List Char
  status_code : Nat
  bytes_sent : Nat
  referrer : List Char
  user_agent : List Char
  deriving DecidableEq, Repr

/-- One row of the `errors` table (surrogate id and the store-defaulted
creation timestamp are left implicit). -/
structure ErrorRow where
  raw_line : List Char
  error_message : List Char
  deriving DecidableEq, Repr

/-- Contents of the SQLite artifact. -/
structure DBState where
  logs : Option (List LogRow)
  errors : Option (List ErrorRow)
  deriving DecidableEq, Repr

/-- Errors a query can raise: operating on a `None` connection
(Python `AttributeError`) or querying a missing table
(`sqlite3.OperationalError`). -/
inductive QueryError where
  | noConnection
  | noSuchTable
  deriving DecidableEq, Repr

/-- State of the filesystem path handed to `create_connection`:
the file may not exist yet (SQLite then creates a fresh artifact with
no tables), may hold an artifact, or may be impossible to open/create
(permissions, bad directory). -/
inductive FileState where
  | absent
  | db (st : DBState)
  | unopenable
  deriving DecidableEq, Repr

/-- `create_connection` of src/database.py: `sqlite3.connect` wrapped
in try/except `sqlite3.Error`.  On failure it prints and returns
`None` (modelled as `none`); connecting to a non-existent path
succeeds and creates an empty artifact with no tables. -/
def create_connection : FileState → Option DBState
  | .absent => some { logs := none, errors := none }
  | .db st => some st
  | .unopenable => none

/-- `create_table` of src/database.py: CREATE TABLE IF NOT EXISTS for
both tables — idempotent, existing rows are preserved, absent tables
become empty.  (The DDL-failure branch, which only prints, is not
modelled; none of the claims concerns it.) -/
def create_table (conn : DBState) : DBState :=
  { logs := some (conn.logs.getD []), errors := some (conn.errors.getD []) }

/-- The row inserted for one parsed entry by `insert_log_entries`
(the nine captured values, the two digit captures converted to
integers by the INTEGER column affinity). -/
def entryToRow (e : LogEntry) : LogRow :=
  { ipaddress := e.ipaddress
    timestamp := e.timestamp
    method := e.method
    path := e.path
    protocol := e.protocol
    status_code := digitsToNat e.status_code
    bytes_sent := digitsToNat e.bytes_sent
    referrer := e.referrer
    user_agent := e.user_agent }

/-- `insert_log_entries` of src/database.py: no-op on an empty list
(before touching the cursor), otherwise `executemany` INSERT, i.e.
append of all rows in order; raises if the table is missing. -/
def insert_log_entries (conn : DBState) (entries : List LogEntry) :
    Except QueryError DBState :=
  if entries = [] then .ok conn
  else
    match conn.logs with
    | some rows => .ok { conn with logs := some (rows ++ entries.map entryToRow) }
    | none => .error .noSuchTable

/-- An element of the list handed to `insert_error_entries`: the
function accepts either a bare line of text or a dict with `raw_line`
and `error_message` keys (the pipeline itself only ever passes bare
lines, the raw non-matching lines from `parse_log`). -/
inductive ErrorInput where
  | text (s : List Char)
  | record (raw_line : List Char) (error_message : List Char)
  deriving DecidableEq, Repr

/-- Normalization performed per element by `insert_error_entries`:
a dict contributes its two fields, a bare string becomes
(line, empty message). -/
def errorInputToRow : ErrorInput → ErrorRow
  | .text s => { raw_line := s, error_message := [] }
  | .record r m => { raw_line := r, error_message := m }

/-- `insert_error_entries` of src/database.py: no-op on an empty list,
otherwise `executemany` INSERT (append in order) of the normalized
rows; raises if the table is missing. -/
def insert_error_entries (conn : DBState) (error_entries : List ErrorInput) :
    Except QueryError DBState :=
  if error_entries = [] then .ok conn
  else
    match conn.errors with
    | some rows => .ok { conn with errors := some (rows ++ error_entries.map errorInputToRow) }
    | none => .error .noSuchTable

/-- The row-count query `SELECT COUNT(*) FROM logs` issued inside
`is_db_empty` (the store contract calls it `count_logs`): fails when
the connection is `None` (`conn.cursor()` raises) or when the `logs`
table does not exist. -/
def count_logs (conn : Option DBState) : Except QueryError Nat :=
  match conn with
  | none => .error .noConnection
  | some st =>
    match st.logs with
    | none => .error .noSuchTable
    | some rows => .ok rows.length

/-- `is_db_empty` of src/database.py: the count query wrapped in
try/except Exception; any failure is treated as "empty" (returns
True). -/
def is_db_empty (conn : Option DBState) : Bool :=
  match count_logs conn with
  | .ok n => n == 0
  | .error _ => true

/-- `is_db_up_to_date` of src/database.py: compares
`os.path.getmtime(db_path)` with `os.path.getmtime(log_file_path)`
inside try/except Exception.  The embedding receives the two stat
results directly; `none` models an OSError while stat-ing that path,
which makes the whole try block fall into the `return False` branch. -/
def is_db_up_to_date (db_mtime log_mtime : Option Nat) : Bool :=
  match db_mtime, log_mtime with
  | some d, some l => decide (d ≥ l)
  | _, _ => false

/-! ### The orchestrator (src/etl_apache.py) -/

/-- The state of the outside world a pipeline run sees: the store
artifact path, the stat results for the store and the source file
(`none` models an OSError from `os.path.getmtime`), and the content of
the source file (`none` models an unreadable source, which makes
`extract` raise). -/
structure World where
  dbFile : FileState
  dbMtime : Option Nat
  srcMtime : Option Nat
  srcContent : Option (List Char)
  deriving DecidableEq, Repr

/-- Exceptions that can escape `run_etl_if_needed`. -/
inductive EtlError where
  | sourceReadError
  | queryError (e : QueryError)
  deriving DecidableEq, Repr

/-- `extract` of src/etl_apache.py: reads the source file and re-raises
any failure. -/
def extract (src : Option (List Char)) : Except EtlError (List Char) :=
  match src with
  | some content => .ok content
  | none => .error .sourceReadError

/-- `transform` of src/etl_apache.py: delegates to `parse_log` (the
try/except there only logs and re-raises, and `parse_log` is total). -/
def transform (log_content : List Char) : List LogEntry × List (List Char) :=
  parse_log log_content

/-- `load` of src/etl_apache.py: open the store, and if the connection
succeeded, ensure the schema, bulk-insert both sequences, commit and
close.  A failed connection only logs an error — nothing is inserted
and no exception is raised.  The resulting `FileState` is the state of
the artifact path after the call. -/
def load (parsed_entries : List LogEntry) (error_entries : List (List Char))
    (fs : FileState) : Except QueryError FileState :=
  match create_connection fs with
  | none => .ok fs
  | some conn =>
    let conn2 := create_table conn
    match insert_log_entries conn2 parsed_entries with
    | .error e => .error e
    | .ok conn3 =>
      match insert_error_entries conn3 (error_entries.map ErrorInput.text) with
      | .error e => .error e
      | .ok conn4 => .ok (FileState.db conn4)

/-- `os.path.exists(db_file)`: only a truly absent path reports false
(an existing but unreadable artifact still exists). -/
def os_path_exists : FileState → Bool
  | .absent => false
  | _ => true

/-- The ETL branch of `run_etl_if_needed` (the code after the two skip
returns): extract, transform, load, and report that a load ran.  The
resulting world carries the new artifact state. -/
def run_etl_body (w : World) : Except EtlError (World × Bool) :=
  match extract w.srcContent with
  | .error e => .error e
  | .ok log_content =>
    match load (transform log_content).1 (transform log_content).2 w.dbFile with
    | .error e => .error (EtlError.queryError e)
    | .ok fs2 => .ok ({ w with dbFile := fs2 }, true)

/-- `run_etl_if_needed` of src/etl_apache.py.  The returned Boolean
records whether the ETL branch ran (`false` means the skip `return`
was taken and the world is untouched). -/
def run_etl_if_needed (w : World) (first_run : Bool) : Except EtlError (World × Bool) :=
  let db_exists := os_path_exists w.dbFile
  let db_up_to_date := if db_exists then is_db_up_to_date w.dbMtime w.srcMtime else false
  let db_empty := if db_exists then is_db_empty (create_connection w.dbFile) else true
  if first_run && db_exists && db_up_to_date && !db_empty then
    .ok (w, false)
  else if !first_run && db_exists && db_up_to_date && !db_empty then
    .ok (w, false)
  else
    run_etl_body w

/-! ### The Aggregator (src/summarizer.py) -/

/-- Grouped counts: one pair per distinct key with the number of rows
carrying that key (SQL GROUP BY with COUNT).  The order of groups and
the tie order under the later sort are not specified by the source; the
embedding fixes one order, which no claim depends on. -/
def groupCounts {α : Type} [DecidableEq α] (keys : List α) : List (α × Nat) :=
  keys.dedup.map fun k => (k, (keys.filter fun x => x = k).length)

/-- Insertion step for the descending sort by count. -/
def insertByCount {α : Type} (x : α × Nat) : List (α × Nat) → List (α × Nat)
  | [] => [x]
  | y :: ys => if x.2 ≤ y.2 then y :: insertByCount x ys else x :: y :: ys

/-- ORDER BY count DESC (insertion sort; ties keep an unspecified
order, as in the source). -/
def sortCountDesc {α : Type} : List (α × Nat) → List (α × Nat)
  | [] => []
  | x :: xs => insertByCount x (sortCountDesc xs)

/-- The Summary computed by `summarize_log`. -/
structure Summary where
  top_endpoints : List (List Char × Nat)
  status_code_distribution : List (Nat × Nat)
  top_client_ips : List (List Char × Nat)
  deriving DecidableEq, Repr

/-- `summarize_log` of src/summarizer.py: open the store; if the
connection failed return `None` (absent summary); otherwise run the
three GROUP BY queries over `logs` and build the summary dictionary.
The queries are not guarded by any try/except, so a missing `logs`
table makes the function raise (`Except.error`). -/
def summarize_log (fs : FileState) : Except QueryError (Option Summary) :=
  match create_connection fs with
  | none => .ok none
  | some conn =>
    match conn.logs with
    | none => .error .noSuchTable
    | some rows =>
      .ok (some
        { top_endpoints := (sortCountDesc (groupCounts (rows.map fun r => r.path))).take 10
          status_code_distribution := groupCounts (rows.map fun r => r.status_code)
          top_client_ips := (sortCountDesc (groupCounts (rows.map fun r => r.ipaddress))).take 10 })

/-- Decidable equality for `Except`, so that the concrete scenario
theorems below can be checked by evaluation. -/
instance {ε α : Type} [DecidableEq ε] [DecidableEq α] : DecidableEq (Except ε α) := fun a b =>
  match a, b with
  | .ok x, .ok y => decidable_of_iff (x = y) ⟨fun h => by rw [h], fun h => Except.ok.inj h⟩
  | .ok _, .error _ => isFalse (fun h => Except.noConfusion h)
  | .error _, .ok _ => isFalse (fun h => Except.noConfusion h)
  | .error e, .error f => decidable_of_iff (e = f) ⟨fun h => by rw [h], fun h => Except.error.inj h⟩

/-! ### Freshness Gate theorems -/

/-- The two skip branches of `run_etl_if_needed` test the same store
condition, once under `first_run` and once under its negation, so the
function reduces to a single test that ignores the flag. -/
theorem run_etl_eq : ∀ (w : World) (fr : Bool), run_etl_if_needed w fr =
    if os_path_exists w.dbFile && is_db_up_to_date w.dbMtime w.srcMtime &&
        !is_db_empty (create_connection w.dbFile) then
      Except.ok (w, false)
    else run_etl_body w := by
  intro w fr
  unfold run_etl_if_needed
  cases hE : os_path_exists w.dbFile <;> cases fr <;> simp [hE]

theorem run_etl_body_not_skip : ∀ (w w' : World),
    run_etl_body w ≠ Except.ok (w', false) := by
  intro w w' h
  unfold run_etl_body at h
  split at h
  · exact Except.noConfusion h
  · split at h
    · exact Except.noConfusion h
    · exact Bool.noConfusion (congrArg Prod.snd (Except.ok.inj h))

/-- Characterization of a true freshness comparison: both stat calls
succeeded and the store's mtime is at least the source's. -/
theorem is_db_up_to_date_iff : ∀ d s : Option Nat, is_db_up_to_date d s = true ↔
    ∃ dm sm, d = some dm ∧ s = some sm ∧ sm ≤ dm := by
  intro d s
  cases d <;> cases s <;> simp [is_db_up_to_date]

/-- Characterization of a false emptiness check on the opened store:
the path holds an artifact whose `logs` table exists and has at least
one row. -/
theorem store_nonempty_iff : ∀ fs : FileState,
    is_db_empty (create_connection fs) = false ↔
    ∃ st rows, fs = FileState.db st ∧ st.logs = some rows ∧ 1 ≤ rows.length := by
  intro fs
  cases fs with
  | absent => simp [create_connection, is_db_empty, count_logs]
  | db st =>
    cases hl : st.logs with
    | none => simp [create_connection, is_db_empty, count_logs, hl]
    | some rows =>
      simp [create_connection, is_db_empty, count_logs, hl,
        Nat.one_le_iff_ne_zero]
  | unopenable => simp [create_connection, is_db_empty, count_logs]

/-- C2: the Freshness Gate skips the load (returns with no load
performed and the world untouched) exactly when the store artifact
exists, both stat calls succeed with the store's mtime at least as
recent as the source's, and the `logs` collection holds at least one
row; in every other case the ETL branch runs. -/
theorem run_etl_skips_iff_fresh_nonempty : ∀ (w : World) (first_run : Bool),
    ((∃ w', run_etl_if_needed w first_run = Except.ok (w', false)) ↔
      (os_path_exists w.dbFile = true ∧
       (∃ dm sm, w.dbMtime = some dm ∧ w.srcMtime = some sm ∧ sm ≤ dm) ∧
       (∃ st rows, w.dbFile = FileState.db st ∧ st.logs = some rows ∧ 1 ≤ rows.length))) ∧
    (∀ w', run_etl_if_needed w first_run = Except.ok (w', false) → w' = w) := by
  intro w fr
  simp only [run_etl_eq]
  by_cases hcond : (os_path_exists w.dbFile && is_db_up_to_date w.dbMtime w.srcMtime &&
      !is_db_empty (create_connection w.dbFile)) = true
  · simp only [if_pos hcond]
    rw [Bool.and_eq_true, Bool.and_eq_true] at hcond
    obtain ⟨⟨hE, hU⟩, hM⟩ := hcond
    have hM' : is_db_empty (create_connection w.dbFile) = false := by
      revert hM
      cases is_db_empty (create_connection w.dbFile) <;> simp
    constructor
    · constructor
      · intro _
        exact ⟨hE, (is_db_up_to_date_iff _ _).mp hU, (store_nonempty_iff _).mp hM'⟩
      · intro _
        exact ⟨w, rfl⟩
    · intro w' h
      exact (congrArg Prod.fst (Except.ok.inj h)).symm
  · simp only [if_neg hcond]
    constructor
    · constructor
      · rintro ⟨w', h⟩
        exact absurd h (run_etl_body_not_skip w w')
      · rintro ⟨hE, hU, hM⟩
        exfalso
        apply hcond
        rw [Bool.and_eq_true, Bool.and_eq_true]
        refine ⟨⟨hE, (is_db_up_to_date_iff _ _).mpr hU⟩, ?_⟩
        rw [(store_nonempty_iff _).mpr hM]
        rfl
    · intro w' h
      exact absurd h (run_etl_body_not_skip w w')

/-- C3 (amended): the `first_run` flag has no effect at all on
`run_etl_if_needed` — the skip condition and the result are identical
with the flag set or cleared, so the flag never forces a load. -/
theorem first_run_flag_has_no_effect : ∀ w : World,
    run_etl_if_needed w true = run_etl_if_needed w false := by
  intro w
  rw [run_etl_eq, run_etl_eq]

/-- C8: with the first-run flag set, a store that exists, is at least
as fresh as the source, and is non-empty makes the run skip the load
entirely: the result reports no load and the world — in particular
both collections of the store — is unchanged. -/
theorem first_run_fresh_store_skips : ∀ (w : World) (st : DBState) (rows : List LogRow)
    (dm sm : Nat),
    w.dbFile = FileState.db st → st.logs = some rows → 1 ≤ rows.length →
    w.dbMtime = some dm → w.srcMtime = some sm → sm ≤ dm →
    run_etl_if_needed w true = Except.ok (w, false) := by
  intro w st rows dm sm hdb hlogs hlen hdm hsm hle
  have hc : (os_path_exists w.dbFile && is_db_up_to_date w.dbMtime w.srcMtime &&
      !is_db_empty (create_connection w.dbFile)) = true := by
    rw [Bool.and_eq_true, Bool.and_eq_true]
    refine ⟨⟨?_, ?_⟩, ?_⟩
    · rw [hdb]
      rfl
    · exact (is_db_up_to_date_iff _ _).mpr ⟨dm, sm, hdm, hsm, hle⟩
    · rw [(store_nonempty_iff w.dbFile).mpr ⟨st, rows, hdb, hlogs, hlen⟩]
      rfl
  rw [run_etl_eq, if_pos hc]

/-! ### Error-handling theorems -/

/-- C6: the conservative bias on error.  A failed stat of either path
makes `is_db_up_to_date` report stale (false), and a failed row-count
query makes `is_db_empty` report empty (true) — never fresh, never
populated. -/
theorem freshness_conservative_on_error :
    (∀ m : Option Nat, is_db_up_to_date none m = false) ∧
    (∀ t : Option Nat, is_db_up_to_date t none = false) ∧
    (∀ (conn : Option DBState) (e : QueryError),
      count_logs conn = Except.error e → is_db_empty conn = true) := by
  refine ⟨fun m => by cases m <;> rfl, fun t => by cases t <;> rfl, fun conn e h => ?_⟩
  unfold is_db_empty
  rw [h]

/-- Witness for C6: the count query on a failed connection errors, and
the emptiness check indeed reports empty there. -/
theorem freshness_conservative_on_error_witness : is_db_empty none = true :=
  freshness_conservative_on_error.2.2 none QueryError.noConnection rfl

/-- C7: `create_connection` fails (returns the absent handle that
signals the connection error) exactly when the artifact cannot be
created or opened; a merely non-existent file is not a failure — the
open succeeds and yields a fresh empty store (no tables, hence no
rows). -/
theorem create_connection_failure_iff :
    (∀ fs : FileState, create_connection fs = none ↔ fs = FileState.unopenable) ∧
    create_connection FileState.absent = some { logs := none, errors := none } := by
  constructor
  · intro fs
    cases fs <;> simp [create_connection]
  · rfl

/-- Witness for C7: the failure direction applied at the concrete
unopenable path. -/
theorem create_connection_failure_iff_witness :
    create_connection FileState.unopenable = none :=
  (create_connection_failure_iff.1 FileState.unopenable).mpr rfl

/-! ### Aggregator theorems -/

/-- Counterexample for C5: opening a non-existent path succeeds and
yields an empty store (both collections absent, zero rows anywhere),
yet `summarize_log` on that store does not return zero-count
aggregates — the first GROUP BY query references the missing `logs`
table and raises (`sqlite3.OperationalError: no such table: logs` in
the source), contradicting "returns empty or zero-count aggregates and
never raises". -/
theorem summarize_raises_on_fresh_store :
    create_connection FileState.absent = some { logs := none, errors := none } ∧
    summarize_log FileState.absent = Except.error QueryError.noSuchTable :=
  ⟨rfl, rfl⟩

/-- C5 (amended): `summarize_log` returns an absent summary exactly
when the store cannot be opened; on a store whose `logs` collection
exists and holds zero rows it returns zero-count (empty) aggregates
without raising.  (On an artifact lacking the `logs` collection the
aggregation query raises instead.) -/
theorem summarize_empty_amended :
    (∀ fs : FileState, summarize_log fs = Except.ok none ↔ fs = FileState.unopenable) ∧
    (∀ st : DBState, st.logs = some [] →
      summarize_log (FileState.db st) =
        Except.ok (some { top_endpoints := [], status_code_distribution := [],
                          top_client_ips := [] })) := by
  constructor
  · intro fs
    cases fs with
    | absent => simp [summarize_log, create_connection]
    | db st => cases hl : st.logs <;> simp [summarize_log, create_connection, hl]
    | unopenable => simp [summarize_log, create_connection]
  · intro st hl
    simp [summarize_log, create_connection, hl, groupCounts, sortCountDesc]

/-- Witness for C5 (amended): applied to the concrete store with an
empty `logs` collection. -/
theorem summarize_empty_amended_witness :
    summarize_log (FileState.db { logs := some [], errors := some [] }) =
      Except.ok (some { top_endpoints := [], status_code_distribution := [],
                        top_client_ips := [] }) :=
  summarize_empty_amended.2 { logs := some [], errors := some [] } rfl

/-! ### Append-only store theorems -/

theorem insert_log_entries_append : ∀ (conn : DBState) (rows : List LogRow)
    (entries : List LogEntry), conn.logs = some rows →
    insert_log_entries conn entries =
      Except.ok { conn with logs := some (rows ++ entries.map entryToRow) } := by
  intro conn rows entries hlogs
  obtain ⟨cl, ce⟩ := conn
  simp only [DBState.logs] at hlogs
  subst hlogs
  unfold insert_log_entries
  by_cases he : entries = []
  · subst he
    simp
  · simp [he]

theorem insert_error_entries_append : ∀ (conn : DBState) (erows : List ErrorRow)
    (errs : List ErrorInput), conn.errors = some erows →
    insert_error_entries conn errs =
      Except.ok { conn with errors := some (erows ++ errs.map errorInputToRow) } := by
  intro conn erows errs herrs
  obtain ⟨cl, ce⟩ := conn
  simp only [DBState.errors] at herrs
  subst herrs
  unfold insert_error_entries
  by_cases he : errs = []
  · subst he
    simp
  · simp [he]

theorem load_appends : ∀ (rows : List LogRow) (erows : List ErrorRow)
    (parsed : List LogEntry) (lines : List (List Char)),
    load parsed lines (FileState.db { logs := some rows, errors := some erows }) =
      Except.ok (FileState.db
        { logs := some (rows ++ parsed.map entryToRow)
          errors := some (erows ++ lines.map fun l => ErrorRow.mk l []) }) := by
  intro rows erows parsed lines
  unfold load
  simp only [create_connection, create_table, Option.getD_some]
  rw [insert_log_entries_append _ rows parsed rfl]
  dsimp only
  rw [insert_error_entries_append _ erows (lines.map ErrorInput.text) rfl]
  dsimp only
  simp [List.map_map, errorInputToRow, Function.comp]

/-- C10: the load phase only appends.  `insert_log_entries` and
`insert_error_entries` leave all existing rows in place and append the
new rows at the end (no row is deleted or updated), and `load` against
an existing store therefore produces the old rows followed by the
file's records — so reloading a file inserts its records a second time
and the row count afterwards is the old count plus the new one,
duplicates included. -/
theorem store_is_append_only : ∀ (conn : DBState) (rows : List LogRow)
    (erows : List ErrorRow) (entries : List LogEntry) (errs : List ErrorInput)
    (parsed : List LogEntry) (lines : List (List Char)),
    (conn.logs = some rows →
      insert_log_entries conn entries =
        Except.ok { conn with logs := some (rows ++ entries.map entryToRow) }) ∧
    (conn.errors = some erows →
      insert_error_entries conn errs =
        Except.ok { conn with errors := some (erows ++ errs.map errorInputToRow) }) ∧
    (load parsed lines (FileState.db { logs := some rows, errors := some erows }) =
      Except.ok (FileState.db
        { logs := some (rows ++ parsed.map entryToRow)
          errors := some (erows ++ lines.map fun l => ErrorRow.mk l []) })) ∧
    (count_logs (create_connection (FileState.db
        { logs := some (rows ++ parsed.map entryToRow)
          errors := some (erows ++ lines.map fun l => ErrorRow.mk l []) })) =
      Except.ok (rows.length + parsed.length)) := by
  intro conn rows erows entries errs parsed lines
  refine ⟨insert_log_entries_append conn rows entries,
    insert_error_entries_append conn erows errs,
    load_appends rows erows parsed lines, ?_⟩
  simp [count_logs, create_connection]

/-! ### Concrete scenario states -/

/-- The row the store holds after loading the specification's scenario
line. -/
def sampleRow : LogRow := entryToRow sampleEntry

/-- A populated store: one row in `logs`, no error rows. -/
def freshStore : DBState := { logs := some [sampleRow], errors := some [] }

/-- A world in which the store artifact exists, is newer than the
source file (mtime 5 versus 3), and is non-empty. -/
def freshWorld : World :=
  { dbFile := FileState.db freshStore
    dbMtime := some 5
    srcMtime := some 3
    srcContent := some [] }

/-- Counterexample for C3: with the first-run flag set and a store
that is fresh and non-empty, `run_etl_if_needed` takes its first skip
branch and returns with no load performed (the world, including both
store collections, is untouched) — the flag does not force the load,
contradicting "the load phase is performed unconditionally, for every
state of the store and source". -/
theorem first_run_skip_counterexample :
    run_etl_if_needed freshWorld true = Except.ok (freshWorld, false) := by decide

/-- Witness for C2: the skip characterization applied at the concrete
fresh, non-empty world. -/
theorem run_etl_skips_iff_fresh_nonempty_witness :
    ∃ w', run_etl_if_needed freshWorld false = Except.ok (w', false) :=
  (run_etl_skips_iff_fresh_nonempty freshWorld false).1.mpr
    ⟨rfl, ⟨5, 3, rfl, rfl, by decide⟩, ⟨freshStore, [sampleRow], rfl, rfl, by decide⟩⟩

/-- Witness for C8: the skip theorem applied at the concrete fresh,
non-empty world with the first-run flag set. -/
theorem first_run_fresh_store_skips_witness :
    run_etl_if_needed freshWorld true = Except.ok (freshWorld, false) :=
  first_run_fresh_store_skips freshWorld freshStore [sampleRow] 5 3 rfl rfl
    (by decide) rfl rfl (by decide)

/-- Witness for C10: the append-only theorem applied to a concrete
populated store and a one-entry insert. -/
theorem store_is_append_only_witness :
    insert_log_entries freshStore [sampleEntry] =
      Except.ok { freshStore with logs := some ([sampleRow] ++ [sampleEntry].map entryToRow) } ∧
    insert_error_entries freshStore [ErrorInput.text "bad".data] =
      Except.ok { freshStore with
        errors := some ([] ++ [ErrorInput.text "bad".data].map errorInputToRow) } :=
  ⟨(store_is_append_only freshStore [sampleRow] [] [sampleEntry]
      [ErrorInput.text "bad".data] [sampleEntry] []).1 rfl,
   (store_is_append_only freshStore [sampleRow] [] [sampleEntry]
      [ErrorInput.text "bad".data] [sampleEntry] []).2.1 rfl⟩
